import Mathlib

set_option maxRecDepth 8000

/-!
Verification development for the SelimCam camera appliance core.

The definitions below are a shallow embedding of the Python source:
* `src/filters/filter_engine.py` (FilterEngine),
* `src/core/state_machine.py` (StateMachine),
* `src/main.py` (PowerManager, CameraApp._init_hardware_safe,
  the event-drain portion of CameraApp.run).

Machine reals are modelled exactly: the Python/NumPy code computes with
IEEE-754 binary64 (`float`) and binary32 (`np.float32`) values, so we
model those values as rationals and round every arithmetic result with
round-to-nearest, ties-to-even at the appropriate significand width.
All values arising in this program are far inside the normal range of
both formats, so gradual underflow and overflow never occur and are not
modelled.  Rational arithmetic is written with `Rat.divInt` and
numerator/denominator arithmetic (rather than the ring operations of
`ℚ`) so that every definition evaluates by kernel reduction.
-/

namespace SelimCam

/-! ## Exact rational arithmetic, kernel-reducible -/

/-- Exact rational multiplication. -/
def qmul (a b : ℚ) : ℚ := Rat.divInt (a.num * b.num) ((a.den : ℤ) * (b.den : ℤ))

/-- Exact rational addition. -/
def qadd (a b : ℚ) : ℚ :=
  Rat.divInt (a.num * (b.den : ℤ) + b.num * (a.den : ℤ)) ((a.den : ℤ) * (b.den : ℤ))

/-- Exact rational subtraction. -/
def qsub (a b : ℚ) : ℚ :=
  Rat.divInt (a.num * (b.den : ℤ) - b.num * (a.den : ℤ)) ((a.den : ℤ) * (b.den : ℤ))

/-- Exact rational negation. -/
def qneg (a : ℚ) : ℚ := Rat.divInt (-a.num) (a.den : ℤ)

/-- Strict order on rationals (denominators are positive). -/
def qlt (a b : ℚ) : Bool := decide (a.num * (b.den : ℤ) < b.num * (a.den : ℤ))

/-- A natural number as a rational. -/
def natQ (n : ℕ) : ℚ := Rat.divInt (n : ℤ) 1

/-- An integer as a rational. -/
def intQ (z : ℤ) : ℚ := Rat.divInt z 1

/-- Floor `⌊x⌋` of a rational, computed by flooring division of the
numerator by the (positive) denominator. -/
def qfloor (x : ℚ) : ℤ := Int.fdiv x.num (x.den : ℤ)

/-! ## IEEE-754 rounding model -/

/-- The rational `2 ^ n`. -/
def pow2 (n : ℕ) : ℚ := Rat.divInt ((2 ^ n : ℕ) : ℤ) 1

/-- The rational `2 ^ e` for an integer exponent. -/
def pow2z : ℤ → ℚ
  | Int.ofNat n => pow2 n
  | Int.negSucc n => Rat.divInt 1 ((2 ^ (n + 1) : ℕ) : ℤ)

/-- Base-2 logarithm (floor) with explicit fuel, so that it reduces
structurally in the kernel. -/
def log2fuel : ℕ → ℕ → ℕ
  | 0, _ => 0
  | fuel + 1, n => if 2 ≤ n then log2fuel fuel (n / 2) + 1 else 0

/-- Floor logarithm `⌊log₂ x⌋` for a positive rational `x ≥ 2 ^ (-200)`
(every value in this development is far larger). -/
def floorLog2 (x : ℚ) : ℤ :=
  (log2fuel 500 (Int.toNat (qfloor (qmul x (pow2 200)))) : ℤ) - 200

/-- Round a rational to an integer, half to even (IEEE default). -/
def roundHalfEven (x : ℚ) : ℤ :=
  let n := qfloor x
  let fr := qsub x (intQ n)
  if qlt fr (Rat.divInt 1 2) then n
  else if qlt (Rat.divInt 1 2) fr then n + 1
  else if n % 2 = 0 then n else n + 1

/-- Round a positive rational to a floating-point value with a
`sig`-bit significand (round to nearest, ties to even). -/
def flPos (sig : ℕ) (x : ℚ) : ℚ :=
  let e := floorLog2 x
  let s := roundHalfEven (qmul x (pow2z ((sig : ℤ) - 1 - e)))
  qmul (intQ s) (pow2z (e + 1 - sig))

/-- Round a rational to a `sig`-bit-significand floating-point value. -/
def flRound (sig : ℕ) (x : ℚ) : ℚ :=
  if x = 0 then 0 else if qlt 0 x then flPos sig x else qneg (flPos sig (qneg x))

/-- Round to IEEE-754 binary64 (Python `float`, NumPy `float64`). -/
def fl64 (x : ℚ) : ℚ := flRound 53 x

/-- Round to IEEE-754 binary32 (NumPy `float32`). -/
def fl32 (x : ℚ) : ℚ := flRound 24 x

/-- binary64 multiplication. -/
def f64mul (a b : ℚ) : ℚ := fl64 (qmul a b)

/-- binary64 addition. -/
def f64add (a b : ℚ) : ℚ := fl64 (qadd a b)

/-- binary32 multiplication. -/
def f32mul (a b : ℚ) : ℚ := fl32 (qmul a b)

/-- Python `int(x)`: truncation toward zero. -/
def pyInt (x : ℚ) : ℤ := if qlt x 0 then -qfloor (qneg x) else qfloor x

/-- NumPy `.astype(np.uint8)` on a nonnegative in-range float:
truncation toward zero, reduced mod 256. -/
def toU8 (x : ℚ) : ℕ := (pyInt x).toNat % 256

/-- NumPy `np.clip(x, 0, 255)` on a float value. -/
def clipQ (x : ℚ) : ℚ :=
  let m := if qlt (natQ 255) x then natQ 255 else x
  if qlt m 0 then 0 else m

end SelimCam

namespace SelimCam

/-! ## FilterEngine (`src/filters/filter_engine.py`) -/

/-- One RGB pixel (uint8 channel values). -/
abbrev Pixel := ℕ × ℕ × ℕ

/-- A frame: the H×W×3 uint8 array, flattened to its pixel list (all
operations of the filter engine are pixelwise and shape-preserving). -/
abbrev Frame := List Pixel

/-- A well-formed frame: every channel value fits in a uint8. -/
def wfFrame (fr : Frame) : Prop :=
  ∀ p ∈ fr, p.1 < 256 ∧ p.2.1 < 256 ∧ p.2.2 < 256

instance (fr : Frame) : Decidable (wfFrame fr) := by
  unfold wfFrame; infer_instance

/-- The `FilterType` enumeration of `filter_engine.py`. -/
inductive FilterType where
  | none
  | night_vision
  | red
  | green
  | pink
  | warm
  | cold
  | monochrom
  | orange
  | yellow
deriving DecidableEq

/-- Python `min` on integers. -/
def zmin (a b : ℤ) : ℤ := if a ≤ b then a else b

/-- Python `max` on integers. -/
def zmax (a b : ℤ) : ℤ := if b ≤ a then a else b

/- The binary64 values of the decimal literals appearing in
`filter_engine.py`. -/

/-- binary64 value of the literal `0.299`. -/
def d0299 : ℚ := fl64 (Rat.divInt 299 1000)

/-- binary64 value of the literal `0.587`. -/
def d0587 : ℚ := fl64 (Rat.divInt 587 1000)

/-- binary64 value of the literal `0.114`. -/
def d0114 : ℚ := fl64 (Rat.divInt 114 1000)

/-- binary64 value of the literal `1.15`. -/
def d115 : ℚ := fl64 (Rat.divInt 115 100)

/-- binary64 value of the literal `1.05`. -/
def d105 : ℚ := fl64 (Rat.divInt 105 100)

/-- binary64 value of the literal `0.9`. -/
def d09 : ℚ := fl64 (Rat.divInt 9 10)

/-- binary64 value of the literal `1.0`. -/
def d10 : ℚ := fl64 (Rat.divInt 1 1)

/-- binary64 value of the literal `1.2`. -/
def d12 : ℚ := fl64 (Rat.divInt 12 10)

/-- binary64 value of the literal `1.5`. -/
def d15 : ℚ := fl64 (Rat.divInt 15 10)

/-- binary64 value of the literal `0.5`. -/
def d05 : ℚ := fl64 (Rat.divInt 5 10)

/-- binary64 value of the literal `1.3`. -/
def d13 : ℚ := fl64 (Rat.divInt 13 10)

/-- binary64 value of the literal `0.8`. -/
def d08 : ℚ := fl64 (Rat.divInt 8 10)

/-- binary64 value of the literal `1.4`. -/
def d14 : ℚ := fl64 (Rat.divInt 14 10)

/-- binary64 value of the literal `1.1`. -/
def d11 : ℚ := fl64 (Rat.divInt 11 10)

/-- binary64 value of the literal `0.6`. -/
def d06 : ℚ := fl64 (Rat.divInt 6 10)

/-- binary64 value of the literal `0.7`. -/
def d07 : ℚ := fl64 (Rat.divInt 7 10)

/-- binary64 value of the literal `0.85`. -/
def d085 : ℚ := fl64 (Rat.divInt 85 100)

/-- Embeds `_build_luts`, Monochrome LUT: `mono_lut[i] = [i, i, i]`
(the "standard luminance formula" comment notwithstanding, the built
table is the identity on each channel). Defined for `i < 256`, the
range of the build loop. -/
def monoLut (i : ℕ) : Pixel := (i, i, i)

/-- Embeds `_build_luts`, Warm LUT entry `i`:
`r = min(255, int(i * 1.15)); g = min(255, int(i * 1.05));
b = max(0, int(i * 0.9))`, each a Python float multiplication. -/
def warmLut (i : ℕ) : Pixel :=
  ((zmin 255 (pyInt (f64mul (natQ i) d115))).toNat,
   (zmin 255 (pyInt (f64mul (natQ i) d105))).toNat,
   (zmax 0 (pyInt (f64mul (natQ i) d09))).toNat)

/-- Embeds `_build_luts`, Cold LUT entry `i`:
`r = max(0, int(i * 0.9)); g = min(255, int(i * 1.0));
b = min(255, int(i * 1.2))`. -/
def coldLut (i : ℕ) : Pixel :=
  ((zmax 0 (pyInt (f64mul (natQ i) d09))).toNat,
   (zmin 255 (pyInt (f64mul (natQ i) d10))).toNat,
   (zmin 255 (pyInt (f64mul (natQ i) d12))).toNat)

/-- NumPy expression `(0.299 * R + 0.587 * G + 0.114 * B).astype(np.uint8)` on one
pixel: NumPy float64 arithmetic, left-associated sum, truncating cast. -/
def grayVal (p : Pixel) : ℕ :=
  toU8 (f64add (f64add (f64mul d0299 (natQ p.1)) (f64mul d0587 (natQ p.2.1)))
    (f64mul d0114 (natQ p.2.2)))

/-- NumPy expression `np.clip(v.astype(np.float32) * c, 0, 255).astype(np.uint8)` for a
Python float scalar `c` (NumPy casts the scalar to float32 and
multiplies in float32). -/
def scaleClipF32u8 (c : ℚ) (v : ℕ) : ℕ := toU8 (clipQ (f32mul (natQ v) (fl32 c)))

/-- NumPy expression `(v * c).astype(np.uint8)` for a Python float scalar `c`: the uint8
value is promoted to float64, multiplied, then truncated. -/
def scaleTruncF64u8 (c : ℚ) (v : ℕ) : ℕ := toU8 (f64mul (natQ v) c)

/-- Overwrite channel 0 of a frame with the given value plane
(`output[:,:,0] = vs`). -/
def setChan0 (fr : Frame) (vs : List ℕ) : Frame :=
  List.zipWith (fun p v => (v, p.2.1, p.2.2)) fr vs

/-- Overwrite channel 1 of a frame (`output[:,:,1] = vs`). -/
def setChan1 (fr : Frame) (vs : List ℕ) : Frame :=
  List.zipWith (fun p v => (p.1, v, p.2.2)) fr vs

/-- Overwrite channel 2 of a frame (`output[:,:,2] = vs`). -/
def setChan2 (fr : Frame) (vs : List ℕ) : Frame :=
  List.zipWith (fun p v => (p.1, p.2.1, v)) fr vs

/-- The `MONOCHROM` branch of `apply_filter`: compute the gray plane
from the copied buffer, then assign it to all three channels in
sequence. -/
def monoWrites (out : Frame) : Frame :=
  let gray := out.map grayVal
  let o1 := setChan0 out gray
  let o2 := setChan1 o1 gray
  setChan2 o2 gray

/-- The `NIGHT_VISION` branch of `apply_filter`. -/
def nightVisionWrites (out : Frame) : Frame :=
  let gray := out.map grayVal
  let boosted := gray.map (scaleClipF32u8 d15)
  let o1 := setChan0 out (boosted.map (fun b => b / 4))
  let o2 := setChan1 o1 boosted
  setChan2 o2 (boosted.map (fun b => b / 4))

/-- The `RED` branch of `apply_filter` (each statement reads the
buffer as left by the previous one). -/
def redWrites (out : Frame) : Frame :=
  let o1 := setChan0 out (out.map (fun p => scaleClipF32u8 d15 p.1))
  let o2 := setChan1 o1 (o1.map (fun p => scaleTruncF64u8 d05 p.2.1))
  setChan2 o2 (o2.map (fun p => scaleTruncF64u8 d05 p.2.2))

/-- The `GREEN` branch of `apply_filter`. -/
def greenWrites (out : Frame) : Frame :=
  let o1 := setChan0 out (out.map (fun p => scaleTruncF64u8 d05 p.1))
  let o2 := setChan1 o1 (o1.map (fun p => scaleClipF32u8 d15 p.2.1))
  setChan2 o2 (o2.map (fun p => scaleTruncF64u8 d05 p.2.2))

/-- The `PINK` branch of `apply_filter`. -/
def pinkWrites (out : Frame) : Frame :=
  let o1 := setChan0 out (out.map (fun p => scaleClipF32u8 d13 p.1))
  let o2 := setChan1 o1 (o1.map (fun p => scaleTruncF64u8 d08 p.2.1))
  setChan2 o2 (o2.map (fun p => scaleClipF32u8 d12 p.2.2))

/-- The `ORANGE` branch of `apply_filter`. -/
def orangeWrites (out : Frame) : Frame :=
  let o1 := setChan0 out (out.map (fun p => scaleClipF32u8 d14 p.1))
  let o2 := setChan1 o1 (o1.map (fun p => scaleClipF32u8 d11 p.2.1))
  setChan2 o2 (o2.map (fun p => scaleTruncF64u8 d06 p.2.2))

/-- The `YELLOW` branch of `apply_filter`. -/
def yellowWrites (out : Frame) : Frame :=
  let o1 := setChan0 out (out.map (fun p => scaleClipF32u8 d13 p.1))
  let o2 := setChan1 o1 (o1.map (fun p => scaleClipF32u8 d13 p.2.1))
  setChan2 o2 (o2.map (fun p => scaleTruncF64u8 d07 p.2.2))

/-- Embeds `_apply_lut_per_channel(frame, lut)`: copies `frame`, then
assigns `output[:,:,c] = lut[frame[:,:,c], c]` for `c = 0, 1, 2`
(every read indexes the unmodified `frame` argument). -/
def lutWrites (frame : Frame) (lut : ℕ → Pixel) : Frame :=
  let o1 := setChan0 frame (frame.map (fun p => (lut p.1).1))
  let o2 := setChan1 o1 (frame.map (fun p => (lut p.2.1).2.1))
  setChan2 o2 (frame.map (fun p => (lut p.2.2).2.2))

/-! ### Buffer heap

NumPy arrays are mutable buffers; `apply_filter` copies its input and
mutates only the copy, while the `NONE` branch returns the input array
itself.  We model the live buffers as a heap (a list of frames indexed
by allocation order): `frame.copy()` appends a fresh buffer, and every
in-place channel assignment rewrites one heap slot. -/

/-- The buffer heap. -/
abbrev Heap := List Frame

/-- Read buffer `i` (out-of-range reads never occur in the program). -/
def hget (h : Heap) (i : ℕ) : Frame := h.getD i []

/-- Overwrite buffer `i` in place. -/
def hset (h : Heap) (i : ℕ) (fr : Frame) : Heap := h.set i fr

/-- Embeds `FilterEngine.apply_filter(frame, filter_type)` on the heap: the
`NONE` selector returns the input buffer itself (no copy); every other
selector copies the input into a fresh buffer and mutates only that
copy (`WARM`/`COLD` delegate to `_apply_lut_per_channel`, which makes a
second copy and writes into it, reading from the first). Returns the
updated heap and the index of the result buffer. -/
def applyFilterH (h : Heap) (fid : ℕ) (ft : FilterType) : Heap × ℕ :=
  if ft = FilterType.none then (h, fid)
  else
    let oid := h.length
    let h1 := h ++ [hget h fid]
    match ft with
    | FilterType.monochrom => (hset h1 oid (monoWrites (hget h1 oid)), oid)
    | FilterType.night_vision => (hset h1 oid (nightVisionWrites (hget h1 oid)), oid)
    | FilterType.red => (hset h1 oid (redWrites (hget h1 oid)), oid)
    | FilterType.green => (hset h1 oid (greenWrites (hget h1 oid)), oid)
    | FilterType.pink => (hset h1 oid (pinkWrites (hget h1 oid)), oid)
    | FilterType.warm =>
        let oid2 := h1.length
        let h2 := h1 ++ [hget h1 oid]
        (hset h2 oid2 (lutWrites (hget h2 oid) warmLut), oid2)
    | FilterType.cold =>
        let oid2 := h1.length
        let h2 := h1 ++ [hget h1 oid]
        (hset h2 oid2 (lutWrites (hget h2 oid) coldLut), oid2)
    | FilterType.orange => (hset h1 oid (orangeWrites (hget h1 oid)), oid)
    | FilterType.yellow => (hset h1 oid (yellowWrites (hget h1 oid)), oid)
    | FilterType.none => (h1, oid)

/-- The `gain_map` of `apply_iso_gain`: `{100: 0.7, 200: 0.85,
400: 1.0, 800: 1.3}`, defaulting to `1.0` for unknown ISO values. -/
def gainFor (iso : ℤ) : ℚ :=
  if iso = 100 then d07
  else if iso = 200 then d085
  else if iso = 400 then d10
  else if iso = 800 then d13
  else d10

/-- One pixel of `np.clip(frame.astype(np.float32) * gain, 0,
255).astype(np.uint8)`. -/
def isoPixel (gain : ℚ) (p : Pixel) : Pixel :=
  (toU8 (clipQ (f32mul (natQ p.1) (fl32 gain))),
   toU8 (clipQ (f32mul (natQ p.2.1) (fl32 gain))),
   toU8 (clipQ (f32mul (natQ p.2.2) (fl32 gain))))

/-- Embeds `FilterEngine.apply_iso_gain(frame, iso_value)` on the heap:
gain `1.0` returns the input buffer unchanged (documented no-op);
otherwise a fresh buffer is allocated for the adjusted frame. -/
def applyIsoGainH (h : Heap) (fid : ℕ) (iso : ℤ) : Heap × ℕ :=
  let gain := gainFor iso
  if gain = 1 then (h, fid)
  else (h ++ [(hget h fid).map (isoPixel gain)], h.length)

/-- Embeds `FilterEngine.process_frame(frame, filter_type, iso_value)`:
ISO gain first, filter second. -/
def processFrameH (h : Heap) (fid : ℕ) (ft : FilterType) (iso : ℤ) : Heap × ℕ :=
  let r1 := applyIsoGainH h fid iso
  applyFilterH r1.1 r1.2 ft

/-- The value computed by `apply_filter` for a frame (running the heap
semantics on a one-buffer heap and reading the result buffer). -/
def applyFilterVal (fr : Frame) (ft : FilterType) : Frame :=
  let r := applyFilterH [fr] 0 ft
  hget r.1 r.2

/-- The per-channel LUT application as the specification describes it:
output channel `c` of each pixel is `lut[input channel c, c]`. -/
def lutApplySpec (fr : Frame) (lut : ℕ → Pixel) : Frame :=
  fr.map (fun p => ((lut p.1).1, (lut p.2.1).2.1, (lut p.2.2).2.2))

end SelimCam

namespace SelimCam

/-! ## StateMachine (`src/core/state_machine.py`) -/

/-- The `AppState` enumeration. -/
inductive AppState where
  | boot
  | camera
  | settings
  | gallery
  | shutdown
deriving DecidableEq

/-- The `AppEvent` enumeration. -/
inductive AppEvent where
  | boot_complete
  | open_settings
  | open_gallery
  | back_to_camera
  | shutdown_request
deriving DecidableEq

/-- The static transition table `StateMachine.TRANSITIONS`. -/
def TRANSITIONS : AppState → List AppState
  | AppState.boot => [AppState.camera]
  | AppState.camera => [AppState.settings, AppState.gallery, AppState.shutdown]
  | AppState.settings => [AppState.camera, AppState.shutdown]
  | AppState.gallery => [AppState.camera, AppState.shutdown]
  | AppState.shutdown => []

/-- The mutable fields of a `StateMachine` object.  Callback
registration is modelled by whether a hook is registered per state
(at most one enter and one exit hook each); invoking a hook is
modelled as an emitted `HookCall`. -/
structure SM where
  current : AppState
  previous : Option AppState
  exitReg : AppState → Bool
  enterReg : AppState → Bool

/-- One hook invocation performed by `transition`. -/
inductive HookCall where
  | exitHook (s : AppState)
  | enterHook (s : AppState)
deriving DecidableEq

/-- Embeds `StateMachine.can_transition(target_state)`. -/
def canTransition (m : SM) (t : AppState) : Bool :=
  decide (t ∈ TRANSITIONS m.current)

/-- Embeds `StateMachine.transition(target_state)`: returns the updated
machine, the hook invocations in order, and the boolean result. -/
def transition (m : SM) (t : AppState) : SM × List HookCall × Bool :=
  if ¬ canTransition m t then (m, [], false)
  else
    let exitCalls := if m.exitReg m.current then [HookCall.exitHook m.current] else []
    let m2 : SM := { m with previous := some m.current, current := t }
    let enterCalls := if m2.enterReg m2.current then [HookCall.enterHook m2.current] else []
    (m2, exitCalls ++ enterCalls, true)

/-- The `event_transitions` dict of `StateMachine.handle_event`
(total: every `AppEvent` is mapped, and every mapped state is truthy). -/
def eventTarget : AppEvent → AppState
  | AppEvent.boot_complete => AppState.camera
  | AppEvent.open_settings => AppState.settings
  | AppEvent.open_gallery => AppState.gallery
  | AppEvent.back_to_camera => AppState.camera
  | AppEvent.shutdown_request => AppState.shutdown

/-- Embeds `StateMachine.handle_event(event)`. -/
def handleEvent (m : SM) (e : AppEvent) : SM × List HookCall × Bool :=
  transition m (eventTarget e)

/-! ## PowerManager (`src/main.py`, lines 236–309)

`time.time()` is passed in explicitly as `now`; the attached
`brightness_ctrl` is modelled by its stored brightness value. -/

/-- The `PowerManager` state strings. -/
inductive PState where
  | active
  | standby
  | shutdown
deriving DecidableEq

/-- The mutable fields of `PowerManager` (plus the brightness
controller's current value). -/
structure PM where
  state : PState
  lastActivityTime : ℚ
  standbyTimeout : ℚ
  shutdownLongPress : ℚ
  encoderPressStart : Option ℚ
  activeBrightness : Option ℕ
  brightness : ℕ
deriving DecidableEq

/-- Python expression `self.active_brightness or 120`: Python `or` falls through to 120
when the stored value is `None` or the falsy `0`. -/
def restoredBrightness : Option ℕ → ℕ
  | Option.none => 120
  | Option.some v => if v = 0 then 120 else v

/-- Embeds `PowerManager.wake_from_standby()`. -/
def wakeFromStandby (pm : PM) (now : ℚ) : PM :=
  if pm.state ≠ PState.standby then pm
  else { pm with brightness := restoredBrightness pm.activeBrightness,
                 state := PState.active, lastActivityTime := now }

/-- Embeds `PowerManager.update_activity()`. -/
def updateActivity (pm : PM) (now : ℚ) : PM :=
  let pm1 := { pm with lastActivityTime := now }
  if pm1.state = PState.standby then wakeFromStandby pm1 now else pm1

/-- Embeds `PowerManager.enter_standby()`: captures the controller's current
brightness, forces brightness 0, and moves to Standby. -/
def enterStandby (pm : PM) : PM :=
  if pm.state = PState.standby then pm
  else { pm with activeBrightness := some pm.brightness, brightness := 0,
                 state := PState.standby }

/-- Embeds `PowerManager.check_standby(motion_detected)`. -/
def checkStandby (pm : PM) (motion : Bool) (now : ℚ) : PM × Bool :=
  if pm.state ≠ PState.active then (pm, false)
  else if motion then ({ pm with lastActivityTime := now }, false)
  else if pm.standbyTimeout ≤ now - pm.lastActivityTime then (enterStandby pm, true)
  else (pm, false)

/-- Embeds `PowerManager.encoder_button_pressed()`. -/
def encoderButtonPressed (pm : PM) (now : ℚ) : PM :=
  if pm.state = PState.standby then updateActivity (wakeFromStandby pm now) now
  else updateActivity { pm with encoderPressStart := some now } now

/-- Embeds `PowerManager.request_shutdown()`. -/
def requestShutdown (pm : PM) : PM := { pm with state := PState.shutdown }

/-- Embeds `PowerManager.encoder_button_released()`: duration is measured
from the recorded press start to `now`; the long-press test also
requires the state to be Active (at release time). -/
def encoderButtonReleased (pm : PM) (now : ℚ) : PM × Bool :=
  match pm.encoderPressStart with
  | Option.none => (pm, false)
  | Option.some t0 =>
    let duration := now - t0
    let pm1 := { pm with encoderPressStart := Option.none }
    if pm1.shutdownLongPress ≤ duration ∧ pm1.state = PState.active then
      (requestShutdown pm1, true)
    else (pm1, false)

end SelimCam

namespace SelimCam

/-! ## Camera construction retry (`CameraApp._init_hardware_safe`,
`src/main.py` lines 490–525, and the `main()` entry point) -/

/-- Constant `retries = 3`. -/
def cameraRetries : ℕ := 3

/-- Constant `retry_delay_s = 0.35` (a Python float literal). -/
def cameraRetryDelay : ℚ := fl64 (Rat.divInt 35 100)

/-- Result of the camera-backend construction loop: the attempt number
that produced a backend (if any), the number of constructor
invocations, and the sleeps performed between failed attempts. -/
structure CamInit where
  camera : Option ℕ
  attempts : ℕ
  sleeps : List ℚ
deriving DecidableEq

/-- The `for attempt in range(1, retries + 1)` loop body:
try the constructor; on success break; on failure sleep
`retry_delay_s` unless this was the final attempt.  `outcome a` tells
whether the `CameraBackend(...)` call at attempt `a` succeeds. -/
def camInitGo (outcome : ℕ → Bool) : List ℕ → CamInit
  | [] => ⟨Option.none, 0, []⟩
  | a :: rest =>
    if outcome a then ⟨some a, 1, []⟩
    else
      let r := camInitGo outcome rest
      ⟨r.camera, r.attempts + 1,
        (if rest = [] then [] else [cameraRetryDelay]) ++ r.sleeps⟩

/-- The camera portion of `_init_hardware_safe`: run the bounded
retry loop; if no attempt succeeded, raise (modelled as `none`),
which the surrounding handler re-raises as the fatal
`RuntimeError("Camera initialization failed on Raspberry Pi")`. -/
def initHardwareCamera (outcome : ℕ → Bool) : CamInit :=
  camInitGo outcome (List.range' 1 cameraRetries)

/-- Embeds `main()`: constructs the application once; the fatal camera error
propagates out of the single `CameraApp()` call and is answered by
`sys.exit(1)` — it is not retried. -/
def mainStartup (outcome : ℕ → Bool) : Except ℕ ℕ :=
  match (initHardwareCamera outcome).camera with
  | Option.none => Except.error 1
  | Option.some k => Except.ok k

/-! ## Orchestrator event drain (`CameraApp.run`, `src/main.py`
lines 727–807)

The pygame event queue drain of one tick.  Hit-testing
(`HitboxEngine.hit_test`), scene lookup and the touch-rotation
configuration are external collaborators, modelled as oracles in
`Env`; the effects visible to them (hit tests performed, events
forwarded to scenes, state-machine dispatches, photo deletions) are
recorded in the orchestrator state. -/

/-- Constant `pygame.K_ESCAPE`. -/
def K_ESCAPE : ℤ := 27

/-- Constant `LOGICAL_W = 480`. -/
def LOGICAL_W : ℤ := 480

/-- Constant `LOGICAL_H = 800`. -/
def LOGICAL_H : ℤ := 800

/-- A drained pygame event.  For `FINGERDOWN` the payload is the
already-scaled integer pair `int(event.x * PHYSICAL_W)`,
`int(event.y * PHYSICAL_H)`. -/
inductive PEvent where
  | quit
  | mouseDown (px py : ℤ) (button : ℕ) (touch : Bool)
  | fingerDown (px py : ℤ)
  | keyDown (key : ℤ)
  | otherEvent
deriving DecidableEq

/-- An event as delivered to `scene.handle_event` (touches are
re-packaged as rotated `MOUSEBUTTONDOWN` events). -/
inductive SceneEvt where
  | mouse (lx ly : ℤ) (button : ℕ) (touch : Bool)
  | key (k : ℤ)
  | passthrough
deriving DecidableEq

/-- A hitbox action string. -/
inductive HitAction where
  | go_to_settings
  | go_to_gallery
  | go_to_main
  | cycle_flash
  | delete_photo
  | unknownAction
deriving DecidableEq

/-- External collaborators of the event drain. -/
structure Env where
  hitTest : AppState → ℤ → ℤ → Option HitAction
  scenePresent : AppState → Bool
  rotationMode : ℕ
  galleryCanDelete : Bool

/-- Orchestrator state touched by the event drain, with effect logs. -/
structure Orch where
  pm : PM
  sm : SM
  running : Bool
  flashModeIdx : ℕ
  lastTouchPoint : Option (ℤ × ℤ)
  lastTouchTs : ℚ
  hitTests : List (AppState × ℤ × ℤ)
  sceneEvents : List SceneEvt
  smHandled : List AppEvent
  deleteCalls : ℕ

/-- Embeds `CameraApp._rotate_touch(px, py)` for the configured
`rotation_test` mode, with the final clamp into logical bounds. -/
def rotateTouch (mode : ℕ) (px py : ℤ) : ℤ × ℤ :=
  let raw :=
    if mode = 0 then (py, 480 - px)
    else if mode = 1 then (px, py)
    else if mode = 2 then (800 - py, px)
    else (480 - px, 800 - py)
  (zmax 0 (zmin (LOGICAL_W - 1) raw.1), zmax 0 (zmin (LOGICAL_H - 1) raw.2))

/-- Dispatch an event to the `StateMachine` and record it. -/
def smDispatch (s : Orch) (ev : AppEvent) : Orch :=
  { s with sm := (handleEvent s.sm ev).1, smHandled := s.smHandled ++ [ev] }

/-- Embeds `CameraApp._execute_hitbox_action(action)`. -/
def executeHitboxAction (env : Env) (s : Orch) (a : HitAction) : Orch :=
  match a with
  | HitAction.go_to_settings => smDispatch s AppEvent.open_settings
  | HitAction.go_to_gallery => smDispatch s AppEvent.open_gallery
  | HitAction.go_to_main => smDispatch s AppEvent.back_to_camera
  | HitAction.cycle_flash => { s with flashModeIdx := (s.flashModeIdx + 1) % 3 }
  | HitAction.delete_photo =>
      if s.sm.current = AppState.gallery ∧ env.scenePresent AppState.gallery
          ∧ env.galleryCanDelete then
        { s with deleteCalls := s.deleteCalls + 1 }
      else s
  | HitAction.unknownAction => s

/-- The common touch-processing path shared by `MOUSEBUTTONDOWN` and
`FINGERDOWN` while not in standby: record activity, rotate the touch,
remember it, run the hit test, and either execute the hit action or
forward the rotated event to the current scene. -/
def touchPath (env : Env) (s : Orch) (now : ℚ) (px py : ℤ) (button : ℕ)
    (touch : Bool) : Orch :=
  let s1 := { s with pm := updateActivity s.pm now }
  let lp := rotateTouch env.rotationMode px py
  let s2 := { s1 with lastTouchPoint := some lp, lastTouchTs := now,
                      hitTests := s1.hitTests ++ [(s1.sm.current, lp.1, lp.2)] }
  match env.hitTest s2.sm.current lp.1 lp.2 with
  | Option.some a => executeHitboxAction env s2 a
  | Option.none =>
      if env.scenePresent s2.sm.current then
        { s2 with sceneEvents := s2.sceneEvents ++ [SceneEvt.mouse lp.1 lp.2 button touch] }
      else s2

/-- The standby branch's waking test
`event.type in (pygame.MOUSEBUTTONDOWN, pygame.KEYDOWN, pygame.FINGERDOWN)`. -/
def wakingEvent : PEvent → Bool
  | PEvent.mouseDown _ _ _ _ => true
  | PEvent.keyDown _ => true
  | PEvent.fingerDown _ _ => true
  | PEvent.quit => false
  | PEvent.otherEvent => false

/-- Processing of one drained event in `CameraApp.run`: `QUIT` stops
the loop; while the `PowerManager` is in standby every event is
consumed, with mouse/key/finger presses recording activity (which
wakes); otherwise the event is routed to the touch path, the key
handler, or forwarded to the current scene. -/
def processEvent (env : Env) (s : Orch) (now : ℚ) (e : PEvent) : Orch :=
  if e = PEvent.quit then { s with running := false }
  else if s.pm.state = PState.standby then
    if wakingEvent e then { s with pm := updateActivity s.pm now } else s
  else
    match e with
    | PEvent.mouseDown px py button touch => touchPath env s now px py button touch
    | PEvent.fingerDown px py => touchPath env s now px py 1 true
    | PEvent.keyDown k =>
        let s1 := { s with pm := updateActivity s.pm now }
        if k = K_ESCAPE then { s1 with running := false }
        else if env.scenePresent s1.sm.current then
          { s1 with sceneEvents := s1.sceneEvents ++ [SceneEvt.key k] }
        else s1
    | PEvent.otherEvent =>
        if env.scenePresent s.sm.current then
          { s with sceneEvents := s.sceneEvents ++ [SceneEvt.passthrough] }
        else s
    | PEvent.quit => s

end SelimCam

namespace SelimCam

/-! ## Helper lemmas -/

theorem lutWrites_eq_spec (lut : ℕ → Pixel) :
    ∀ fr : Frame, lutWrites fr lut = lutApplySpec fr lut := by
  intro fr
  induction fr with
  | nil => rfl
  | cons p t ih =>
    simp only [lutWrites, lutApplySpec, setChan0, setChan1, setChan2, List.map_cons,
      List.zipWith_cons_cons] at ih ⊢
    exact congrArg _ ih

theorem hget_hset_ne (h : Heap) (i j : ℕ) (fr : Frame) (hij : i ≠ j) :
    hget (hset h i fr) j = hget h j := by
  simp [hget, hset, List.getD]
  rw [List.getElem?_set_ne hij]

theorem hget_append_lt (h tl : Heap) (j : ℕ) (hj : j < h.length) :
    hget (h ++ tl) j = hget h j := by
  simp [hget, List.getD]
  rw [List.getElem?_append_left hj]

theorem applyFilterH_preserves (h : Heap) (fid : ℕ) (ft : FilterType) (j : ℕ)
    (hj : j < h.length) : hget (applyFilterH h fid ft).1 j = hget h j := by
  cases ft
  case none => simp [applyFilterH]
  all_goals
    simp only [applyFilterH]
    rw [if_neg (by decide)]
    dsimp only
    first
      | rw [hget_hset_ne _ _ _ _ (by omega), hget_append_lt _ _ _ hj]
      | rw [hget_hset_ne _ _ _ _ (by simp; omega),
          hget_append_lt _ _ _ (by simp; omega), hget_append_lt _ _ _ hj]

theorem applyIsoGainH_preserves (h : Heap) (fid : ℕ) (iso : ℤ) (j : ℕ)
    (hj : j < h.length) : hget (applyIsoGainH h fid iso).1 j = hget h j := by
  simp only [applyIsoGainH]
  split
  · rfl
  · exact hget_append_lt _ _ _ hj

theorem applyIsoGainH_length (h : Heap) (fid : ℕ) (iso : ℤ) :
    h.length ≤ (applyIsoGainH h fid iso).1.length := by
  simp only [applyIsoGainH]
  split
  · exact le_refl _
  · simp

/-! ## Claim theorems -/

/-- C1, counterexample: from `Boot` — a non-terminal state —
`handle_event(ShutdownRequest)` does **not** transition to Shutdown:
`Boot`'s allowed set is `{Camera}`, so the call returns false, leaves
the state at Boot, and fires no hook even though an exit hook is
registered. -/
theorem handleEvent_shutdown_from_boot_fails :
    (handleEvent ⟨AppState.boot, Option.none, fun _ => true, fun _ => true⟩
        AppEvent.shutdown_request).2.2 = false ∧
    (handleEvent ⟨AppState.boot, Option.none, fun _ => true, fun _ => true⟩
        AppEvent.shutdown_request).1.current = AppState.boot ∧
    (handleEvent ⟨AppState.boot, Option.none, fun _ => true, fun _ => true⟩
        AppEvent.shutdown_request).2.1 = [] := by
  decide

/-- C1, amended: from `Camera`, `Settings` or `Gallery`,
`handle_event(ShutdownRequest)` transitions to Shutdown, returns true,
and fires the departing state's exit hook exactly once (when one is
registered; zero times otherwise).  From `Boot` the event is rejected
by the transition table. -/
theorem handleEvent_shutdown_request_spec (m : SM)
    (hcur : m.current = AppState.camera ∨ m.current = AppState.settings ∨
      m.current = AppState.gallery) :
    (handleEvent m AppEvent.shutdown_request).1.current = AppState.shutdown ∧
    (handleEvent m AppEvent.shutdown_request).2.2 = true ∧
    (handleEvent m AppEvent.shutdown_request).2.1.count (HookCall.exitHook m.current)
      = (if m.exitReg m.current then 1 else 0) := by
  obtain ⟨c, p, ex, en⟩ := m
  rcases hcur with h | h | h <;> subst h
  · cases hex : ex AppState.camera <;> cases hen : en AppState.shutdown <;>
      simp_all [handleEvent, transition, canTransition, eventTarget, TRANSITIONS,
        List.count_cons, List.count_nil]
  · cases hex : ex AppState.settings <;> cases hen : en AppState.shutdown <;>
      simp_all [handleEvent, transition, canTransition, eventTarget, TRANSITIONS,
        List.count_cons, List.count_nil]
  · cases hex : ex AppState.gallery <;> cases hen : en AppState.shutdown <;>
      simp_all [handleEvent, transition, canTransition, eventTarget, TRANSITIONS,
        List.count_cons, List.count_nil]

/-- C1 witness: concrete run from `Camera` with both hooks
registered. -/
theorem handleEvent_shutdown_request_spec_witness :
    (handleEvent ⟨AppState.camera, Option.none, fun _ => true, fun _ => true⟩
        AppEvent.shutdown_request).1.current = AppState.shutdown ∧
    (handleEvent ⟨AppState.camera, Option.none, fun _ => true, fun _ => true⟩
        AppEvent.shutdown_request).2.2 = true ∧
    (handleEvent ⟨AppState.camera, Option.none, fun _ => true, fun _ => true⟩
        AppEvent.shutdown_request).2.1.count (HookCall.exitHook AppState.camera) = 1 := by
  have h := handleEvent_shutdown_request_spec
    ⟨AppState.camera, Option.none, fun _ => true, fun _ => true⟩ (Or.inl rfl)
  exact ⟨h.1, h.2.1, by simpa using h.2.2⟩

/-- C2: `transition(target)` returns true exactly when the target is
in the current state's allowed set (hence always false from
Shutdown); a rejected transition performs no side effect (machine
unchanged, no hook fired); an accepted one fires the departing
state's exit hook (if registered) before the entering state's enter
hook (if registered), records the previous state, and moves to the
target. -/
theorem transition_spec (m : SM) (t : AppState) :
    ((transition m t).2.2 = true ↔ t ∈ TRANSITIONS m.current) ∧
    ((transition m t).2.2 = false → transition m t = (m, [], false)) ∧
    (m.current = AppState.shutdown → (transition m t).2.2 = false) ∧
    ((transition m t).2.2 = true →
      (transition m t).1.previous = some m.current ∧
      (transition m t).1.current = t ∧
      (transition m t).1.exitReg = m.exitReg ∧
      (transition m t).1.enterReg = m.enterReg ∧
      (transition m t).2.1 =
        (if m.exitReg m.current then [HookCall.exitHook m.current] else []) ++
        (if m.enterReg t then [HookCall.enterHook t] else [])) := by
  by_cases hmem : t ∈ TRANSITIONS m.current
  · refine ⟨by simp [transition, canTransition, hmem], ?_, ?_, ?_⟩
    · intro hfalse
      simp [transition, canTransition, hmem] at hfalse
    · intro hsh
      rw [hsh] at hmem
      simp [TRANSITIONS] at hmem
    · intro _
      simp [transition, canTransition, hmem]
  · refine ⟨by simp [transition, canTransition, hmem], ?_, ?_, ?_⟩
    · intro _
      simp [transition, canTransition, hmem]
    · intro _
      simp [transition, canTransition, hmem]
    · intro htrue
      simp [transition, canTransition, hmem] at htrue

/-- C2 witness: a concrete accepted and a concrete rejected
transition. -/
theorem transition_spec_witness :
    (transition ⟨AppState.camera, Option.none, fun _ => true, fun _ => false⟩
        AppState.gallery).2.2 = true ∧
    (transition ⟨AppState.shutdown, Option.none, fun _ => true, fun _ => true⟩
        AppState.camera) =
      (⟨AppState.shutdown, Option.none, fun _ => true, fun _ => true⟩, [], false) := by
  constructor
  · exact (transition_spec ⟨AppState.camera, Option.none, fun _ => true, fun _ => false⟩
      AppState.gallery).1.mpr (by decide)
  · exact (transition_spec ⟨AppState.shutdown, Option.none, fun _ => true, fun _ => true⟩
      AppState.camera).2.1 (by decide)

theorem hget_append_self (h : Heap) (x : Frame) : hget (h ++ [x]) h.length = x := by
  simp [hget, List.getD]

theorem hget_hset_self (h : Heap) (i : ℕ) (fr : Frame) (hi : i < h.length) :
    hget (hset h i fr) i = fr := by
  simp [hget, hset, List.getD, List.getElem?_set_self, hi]

/-- C3, counterexample: for the Monochrome selector `apply_filter`
does **not** agree with applying its precomputed LUT per channel: the
built Monochrome table is the identity on each channel, while the
branch computes the luminance formula, so they differ already on the
well-formed one-pixel frame (255,0,0). -/
theorem monochrom_not_lut :
    applyFilterVal [(255, 0, 0)] FilterType.monochrom ≠
      lutApplySpec [(255, 0, 0)] monoLut ∧
    wfFrame [(255, 0, 0)] := by
  decide

/-- C3, amended: for the Warm and Cold selectors, `apply_filter` on
any well-formed frame equals applying that selector's precomputed
256-entry × 3-channel LUT per channel (output channel `c` is
`lut[input channel c, c]`); Monochrome instead computes its grayscale
arithmetically and never consults its (identity) LUT. -/
theorem warm_cold_lut_spec (h : Heap) (fid : ℕ) (_hwf : wfFrame (hget h fid)) :
    hget (applyFilterH h fid FilterType.warm).1 (applyFilterH h fid FilterType.warm).2 =
      lutApplySpec (hget h fid) warmLut ∧
    hget (applyFilterH h fid FilterType.cold).1 (applyFilterH h fid FilterType.cold).2 =
      lutApplySpec (hget h fid) coldLut := by
  constructor <;>
  · simp only [applyFilterH]
    rw [if_neg (by decide)]
    dsimp only
    rw [hget_append_self, hget_hset_self _ _ _ (by simp),
      hget_append_lt _ _ _ (by simp), hget_append_self, lutWrites_eq_spec]

/-- C3 witness: the Warm/Cold LUT agreement evaluated on a concrete
one-pixel heap. -/
theorem warm_cold_lut_spec_witness :
    hget (applyFilterH [[(1, 2, 3)]] 0 FilterType.warm).1
        (applyFilterH [[(1, 2, 3)]] 0 FilterType.warm).2 =
      lutApplySpec [(1, 2, 3)] warmLut ∧
    hget (applyFilterH [[(1, 2, 3)]] 0 FilterType.cold).1
        (applyFilterH [[(1, 2, 3)]] 0 FilterType.cold).2 =
      lutApplySpec [(1, 2, 3)] coldLut := by
  exact warm_cold_lut_spec [[(1, 2, 3)]] 0 (by decide)

/-- C4, counterexample: Monochrome is **not** idempotent.  On the
well-formed frame [(0,2,0)] the first application yields gray value 1
(`int(0.587*2) = 1`), but re-graying (1,1,1) yields
`int(0.299*1 + 0.587*1 + 0.114*1) = int(0.9999999999999999) = 0` in
float64, so a second application changes the frame again. -/
theorem monochrom_idempotent_fails :
    applyFilterVal (applyFilterVal [(0, 2, 0)] FilterType.monochrom)
        FilterType.monochrom ≠
      applyFilterVal [(0, 2, 0)] FilterType.monochrom := by
  decide

/-- C4, amended: neither Monochrome nor Warm is idempotent: float64
truncation shifts some Monochrome gray values under re-application
(witness frame [(0,2,0)], mapped to (1,1,1) and then to (0,0,0)), and
the Warm LUT moves value 10 to 11 and 11 to 12 (witness frame
[(10,0,0)]). -/
theorem filters_not_idempotent :
    (applyFilterVal (applyFilterVal [(0, 2, 0)] FilterType.monochrom)
        FilterType.monochrom ≠
      applyFilterVal [(0, 2, 0)] FilterType.monochrom) ∧
    (applyFilterVal (applyFilterVal [(10, 0, 0)] FilterType.warm) FilterType.warm ≠
      applyFilterVal [(10, 0, 0)] FilterType.warm) := by
  constructor <;> decide

/-- C8: `process_frame(frame, None, 400)` is the identity in the
strongest sense: ISO 400 maps to gain 1.0, whose branch returns the
input buffer unchanged, and the `None` selector returns its input
buffer unchanged, so the heap and the returned buffer index are both
exactly the input ones (bit-for-bit equal, no copy). -/
theorem processFrame_none_400_identity (h : Heap) (fid : ℕ) :
    processFrameH h fid FilterType.none 400 = (h, fid) := by
  have hg : gainFor 400 = 1 := by decide
  simp [processFrameH, applyIsoGainH, applyFilterH, hg]

/-- C9: `process_frame` (hence `apply_iso_gain` and `apply_filter`)
never mutates the input frame's buffer: every selector either returns
the input buffer unmodified or writes only to freshly allocated
copies, so after the call the input slot of the heap is bit-for-bit
unchanged. -/
theorem processFrame_preserves_input (h : Heap) (fid : ℕ) (ft : FilterType) (iso : ℤ)
    (hfid : fid < h.length) :
    hget (processFrameH h fid ft iso).1 fid = hget h fid := by
  unfold processFrameH
  rw [applyFilterH_preserves _ _ _ _ (lt_of_lt_of_le hfid (applyIsoGainH_length h fid iso)),
    applyIsoGainH_preserves _ _ _ _ hfid]

/-- C9 witness: a concrete call (Red filter, ISO 100) leaves the
input buffer untouched. -/
theorem processFrame_preserves_input_witness :
    hget (processFrameH [[(1, 2, 3)]] 0 FilterType.red 100).1 0 = [(1, 2, 3)] := by
  exact (processFrame_preserves_input [[(1, 2, 3)]] 0 FilterType.red 100
    (by decide)).trans (by decide)

/-- C5, counterexample: `encoder_button_released` checks the state at
**release** time, not press time.  Concrete trace: press at t=0 while
Active (long-press threshold 1.8 s, standby timeout 10 s), the 2-second
standby check fires at t=10 and enters Standby, release at t=10: the
held duration 10 ≥ 1.8 and the state **was** Active at press time, yet
the call returns false (and requests no shutdown). -/
theorem encoder_release_press_time_counterexample :
    (⟨PState.active, 0, 10, 9/5, Option.none, Option.none, 120⟩ : PM).state
        = PState.active ∧
    (encoderButtonPressed
        ⟨PState.active, 0, 10, 9/5, Option.none, Option.none, 120⟩ 0).encoderPressStart
      = some 0 ∧
    (⟨PState.active, 0, 10, 9/5, Option.none, Option.none, 120⟩ : PM).shutdownLongPress
      ≤ 10 - 0 ∧
    (encoderButtonReleased
        (checkStandby
          (encoderButtonPressed
            ⟨PState.active, 0, 10, 9/5, Option.none, Option.none, 120⟩ 0)
          false 10).1
        10).2 = false := by
  with_unfolding_all decide

/-- C5, amended: `encoder_button_released` returns true exactly when a
press start was recorded and the held duration (now − press start)
reaches the configured long-press threshold **and the state is Active
at release time**; whenever it returns true it requests Shutdown. -/
theorem encoderButtonReleased_spec (pm : PM) (now : ℚ) :
    ((encoderButtonReleased pm now).2 = true ↔
      ∃ t0, pm.encoderPressStart = some t0 ∧ pm.shutdownLongPress ≤ now - t0 ∧
        pm.state = PState.active) ∧
    ((encoderButtonReleased pm now).2 = true →
      (encoderButtonReleased pm now).1.state = PState.shutdown) := by
  cases hps : pm.encoderPressStart with
  | none => simp [encoderButtonReleased, hps]
  | some t0 =>
    by_cases hc : pm.shutdownLongPress ≤ now - t0 ∧ pm.state = PState.active
    · constructor
      · simp only [encoderButtonReleased, hps, if_pos hc]
        constructor
        · intro _
          exact ⟨t0, rfl, hc.1, hc.2⟩
        · intro _
          trivial
      · intro _
        simp only [encoderButtonReleased, hps, if_pos hc, requestShutdown]
    · simp only [encoderButtonReleased, hps]
      rw [if_neg (by exact fun h => hc ⟨h.1, h.2⟩)]
      simp only [not_and] at hc
      constructor
      · simp only [Bool.false_eq_true, false_iff]
        rintro ⟨t1, ht1, hd, hs⟩
        cases ht1
        exact hc hd hs
      · intro h
        cases h

/-- C5 witness: press recorded at t=0 while Active, released at t=2
with threshold 1.8: returns true and requests Shutdown. -/
theorem encoderButtonReleased_spec_witness :
    (encoderButtonReleased
        ⟨PState.active, 0, 10, 9/5, some 0, Option.none, 120⟩ 2).2 = true ∧
    (encoderButtonReleased
        ⟨PState.active, 0, 10, 9/5, some 0, Option.none, 120⟩ 2).1.state
      = PState.shutdown := by
  have h := encoderButtonReleased_spec
    ⟨PState.active, 0, 10, 9/5, some 0, Option.none, 120⟩ 2
  have ht : (encoderButtonReleased
      ⟨PState.active, 0, 10, 9/5, some 0, Option.none, 120⟩ 2).2 = true :=
    h.1.mpr ⟨0, rfl, by norm_num, rfl⟩
  exact ⟨ht, h.2 ht⟩

/-- C6: `check_standby(motion_detected)` is a no-op returning false in
every state other than Active (in particular from Standby and from
Shutdown); when Active with motion it resets the idle clock to `now`
and returns false; when Active without motion and the idle time has
reached the configured timeout it captures the current brightness,
forces brightness 0, moves to Standby and returns true; otherwise it
returns false without changes. -/
theorem checkStandby_spec (pm : PM) (motion : Bool) (now : ℚ) :
    (pm.state ≠ PState.active → checkStandby pm motion now = (pm, false)) ∧
    (pm.state = PState.active → motion = true →
      checkStandby pm motion now = ({ pm with lastActivityTime := now }, false)) ∧
    (pm.state = PState.active → motion = false →
      pm.standbyTimeout ≤ now - pm.lastActivityTime →
      checkStandby pm motion now =
        ({ pm with activeBrightness := some pm.brightness, brightness := 0,
                   state := PState.standby }, true)) ∧
    (pm.state = PState.active → motion = false →
      now - pm.lastActivityTime < pm.standbyTimeout →
      checkStandby pm motion now = (pm, false)) := by
  refine ⟨?_, ?_, ?_, ?_⟩
  · intro hs
    simp [checkStandby, hs]
  · intro hs hm
    simp [checkStandby, hs, hm]
  · intro hs hm ht
    simp [checkStandby, hs, hm, ht, enterStandby]
  · intro hs hm ht
    simp [checkStandby, hs, hm, not_le.mpr ht]

/-- C6 witness: idle Active controller at brightness 120 with timeout
10 enters Standby at t=10. -/
theorem checkStandby_spec_witness :
    checkStandby ⟨PState.active, 0, 10, 9/5, Option.none, Option.none, 120⟩ false 10 =
      (⟨PState.standby, 0, 10, 9/5, Option.none, some 120, 0⟩, true) := by
  exact (checkStandby_spec ⟨PState.active, 0, 10, 9/5, Option.none, Option.none, 120⟩
    false 10).2.2.1 rfl rfl (by norm_num)

/-- C7: camera backend construction is attempted at most 3 times, a
fixed `retry_delay_s` sleep separates consecutive failed attempts (no
sleep after the last), the first success stops the loop, and if all
three attempts fail the camera is absent and `main()` exits with
status 1 (the fatal error is not retried upstream). -/
theorem cameraInit_spec (outcome : ℕ → Bool) :
    (initHardwareCamera outcome).attempts ≤ cameraRetries ∧
    (initHardwareCamera outcome).sleeps =
      List.replicate ((initHardwareCamera outcome).attempts - 1) cameraRetryDelay ∧
    (outcome 1 = true → initHardwareCamera outcome = ⟨some 1, 1, []⟩) ∧
    (outcome 1 = false → outcome 2 = true →
      initHardwareCamera outcome = ⟨some 2, 2, [cameraRetryDelay]⟩) ∧
    (outcome 1 = false → outcome 2 = false → outcome 3 = true →
      initHardwareCamera outcome = ⟨some 3, 3, [cameraRetryDelay, cameraRetryDelay]⟩) ∧
    (outcome 1 = false → outcome 2 = false → outcome 3 = false →
      (initHardwareCamera outcome).camera = Option.none ∧
        mainStartup outcome = Except.error 1) := by
  have hr : List.range' 1 cameraRetries = [1, 2, 3] := rfl
  cases h1 : outcome 1 <;> cases h2 : outcome 2 <;> cases h3 : outcome 3 <;>
    simp [initHardwareCamera, mainStartup, hr, camInitGo, h1, h2, h3, cameraRetries,
      List.replicate]

/-- C7 witness: with every attempt failing, the camera is absent and
startup exits fatally. -/
theorem cameraInit_spec_witness :
    (initHardwareCamera (fun _ => false)).camera = Option.none ∧
    mainStartup (fun _ => false) = Except.error 1 := by
  exact (cameraInit_spec (fun _ => false)).2.2.2.2.2 rfl rfl rfl

/-- C10: while the `PowerManager` is in standby, every drained
non-quit event is consumed: no hit test runs, nothing is forwarded to
the current scene, no `AppStateMachine` event is dispatched and the
machine is untouched; a mouse press, key press or finger touch only
records activity, which wakes the device, and any other event does
nothing at all. -/
theorem standby_event_consumed (env : Env) (s : Orch) (now : ℚ) (e : PEvent)
    (hsb : s.pm.state = PState.standby) (hq : e ≠ PEvent.quit) :
    (processEvent env s now e).hitTests = s.hitTests ∧
    (processEvent env s now e).sceneEvents = s.sceneEvents ∧
    (processEvent env s now e).smHandled = s.smHandled ∧
    (processEvent env s now e).sm = s.sm ∧
    (processEvent env s now e).running = s.running ∧
    (wakingEvent e = true →
      (processEvent env s now e).pm = updateActivity s.pm now ∧
      (processEvent env s now e).pm.state = PState.active) ∧
    (wakingEvent e = false → processEvent env s now e = s) := by
  cases e <;>
    simp_all [processEvent, wakingEvent, updateActivity, wakeFromStandby]

/-- C10 witness: a key press drained while in standby wakes the
device and is otherwise consumed. -/
theorem standby_event_consumed_witness :
    (processEvent ⟨fun _ _ _ => Option.none, fun _ => true, 0, true⟩
        ⟨⟨PState.standby, 0, 10, 9/5, Option.none, some 120, 0⟩,
          ⟨AppState.camera, Option.none, fun _ => false, fun _ => false⟩,
          true, 0, Option.none, 0, [], [], [], 0⟩ 3 (PEvent.keyDown 5)).sceneEvents = [] ∧
    (processEvent ⟨fun _ _ _ => Option.none, fun _ => true, 0, true⟩
        ⟨⟨PState.standby, 0, 10, 9/5, Option.none, some 120, 0⟩,
          ⟨AppState.camera, Option.none, fun _ => false, fun _ => false⟩,
          true, 0, Option.none, 0, [], [], [], 0⟩ 3 (PEvent.keyDown 5)).pm.state
      = PState.active := by
  have h := standby_event_consumed ⟨fun _ _ _ => Option.none, fun _ => true, 0, true⟩
    ⟨⟨PState.standby, 0, 10, 9/5, Option.none, some 120, 0⟩,
      ⟨AppState.camera, Option.none, fun _ => false, fun _ => false⟩,
      true, 0, Option.none, 0, [], [], [], 0⟩ 3 (PEvent.keyDown 5) rfl (by decide)
  exact ⟨h.2.1, (h.2.2.2.2.2.1 rfl).2⟩

end SelimCam
